import Mathlib

/-!
Verification development for the retirement-portfolio simulator in
`src/simulate.py`.  The yearly simulation loop (section 7 of the source) is
embedded shallowly: Python integers become `ℤ`, the float quantities (rates,
cost basis after a pro-rata sale) become `ℚ`, and Python's `round` (round half
to even) becomes `pyround`.
-/

/-- Python's `round` on exact rationals: round to the nearest integer,
ties to the even integer. -/
def pyround (x : ℚ) : ℤ :=
  if Int.fract x = 1/2 then (if ⌊x⌋ % 2 = 0 then ⌊x⌋ else ⌊x⌋ + 1) else round x

/-- The progressive income-tax bracket table of `calculate_income_tax`
(src/simulate.py lines 12-21): `(upper limit, marginal rate, cumulative
deduction)`, with `none` standing for the final `float("inf")` limit. -/
def tax_brackets : List (Option ℚ × ℚ × ℚ) :=
  [(some 12000000, 0.06, 0),
   (some 46000000, 0.15, 1080000),
   (some 88000000, 0.24, 5220000),
   (some 150000000, 0.35, 14900000),
   (some 300000000, 0.38, 19400000),
   (some 500000000, 0.40, 25400000),
   (some 1000000000, 0.42, 35400000),
   (none, 0.45, 65400000)]

/-- The bracket scan of `calculate_income_tax`: first bracket whose limit is
not exceeded wins; `max(0, round(income * rate - deduction))`. -/
def taxGo (income : ℚ) : List (Option ℚ × ℚ × ℚ) → ℤ
  | [] => 0
  | (some limit, rate, deduction) :: rest =>
      if income ≤ limit then max 0 (pyround (income * rate - deduction))
      else taxGo income rest
  | (none, rate, deduction) :: _ =>
      max 0 (pyround (income * rate - deduction))

/-- `calculate_income_tax` (src/simulate.py lines 11-25). -/
def calculate_income_tax (income : ℚ) : ℤ :=
  taxGo income tax_brackets

/-- The fixed post-retirement withdrawal rate (src/simulate.py line 220). -/
def withdrawal_rate : ℚ := 0.04

/-- The capital-gains exemption (src/simulate.py line 244). -/
def capital_gains_exemption : ℚ := 2500000

/-- The sidebar inputs consumed by the simulation loop. -/
structure Params where
  current_age : ℕ
  death_age : ℕ
  current_savings : ℤ
  annual_income_input : ℤ
  income_end_age : ℕ
  other_income_input : ℤ
  other_income_end_age : ℕ
  annual_expenses_input : ℤ
  expected_return : ℚ
  inflation_rate : ℚ
  capital_gains_tax_rate : ℚ
deriving DecidableEq

/-- `financial_independence_target` (src/simulate.py line 221). -/
def financial_independence_target (p : Params) : ℤ :=
  p.annual_expenses_input * 25

/-- Validity of a parameter set, as assumed by the spec: ordered ages and
non-negative monetary amounts and rates. -/
def ValidParams (p : Params) : Prop :=
  p.current_age ≤ p.death_age ∧
  0 ≤ p.current_savings ∧
  0 ≤ p.annual_income_input ∧
  0 ≤ p.other_income_input ∧
  0 ≤ p.annual_expenses_input ∧
  0 ≤ p.expected_return ∧
  0 ≤ p.inflation_rate ∧
  0 ≤ p.capital_gains_tax_rate ∧
  p.current_age ≤ p.income_end_age ∧ p.income_end_age ≤ p.death_age ∧
  p.current_age ≤ p.other_income_end_age ∧ p.other_income_end_age ≤ p.death_age

instance (p : Params) : Decidable (ValidParams p) := by
  unfold ValidParams; infer_instance

/-- The mutable loop state of the simulation (src/simulate.py lines 234-246):
rolling nominal amounts, portfolio balance, cost basis, and the two milestone
ages. -/
structure SimState where
  annual_income : ℤ
  other_income : ℤ
  annual_expenses : ℤ
  portfolio : ℤ
  cost_basis : ℚ
  depletion_age : Option ℕ
  fi_age : Option ℕ
deriving DecidableEq

/-- One row of the logged data (src/simulate.py lines 339-348). -/
structure YearRecord where
  age : ℕ
  portfolio_value : ℤ
  withdrawal : ℤ
  tax_paid : ℤ
  expense : ℤ
  income_value : ℤ
  other_income_value : ℤ
  income_tax : ℤ
  net_income : ℤ
  investment_growth : ℤ
deriving DecidableEq

/-- The capital-gains computation on a post-retirement sale
(src/simulate.py lines 304-327, section 2-a).  Given the tax rate, the
pre-sale cost basis, the post-withdrawal portfolio and the withdrawal,
returns the new cost basis and the capital-gains tax amount. -/
def sellTax (rate : ℚ) (cb : ℚ) (portfolio2 w : ℤ) : ℚ × ℤ :=
  let portfolio_before_sell : ℤ := portfolio2 + w
  let total_unrealized_gains : ℚ := (portfolio_before_sell : ℚ) - cb
  if total_unrealized_gains ≤ 0 then
    let cb1 := cb - (w : ℚ)
    (if cb1 < 0 then 0 else cb1, 0)
  else
    let capital_gains := total_unrealized_gains * ((w : ℚ) / (portfolio_before_sell : ℚ))
    let taxable_gains := max 0 (capital_gains - capital_gains_exemption)
    let tax_amount := pyround (taxable_gains * rate)
    let cbs0 := (w : ℚ) - capital_gains
    let cost_basis_sold := if cbs0 < 0 then 0 else cbs0
    let cb1 := cb - cost_basis_sold
    (if cb1 < 0 then 0 else cb1, tax_amount)

/-- The tail of a simulated year (src/simulate.py lines 329-348): depletion
check (section E), FIRE check (section F) and the logged row. -/
def finishYear (fiTarget : ℤ) (preRet : Bool) (age : ℕ) (s : SimState)
    (ai oi ae salary extra itax net growth : ℤ)
    (portfolio2 : ℤ) (cb2 : ℚ) (w cgt : ℤ) : SimState × YearRecord :=
  let depleting := portfolio2 < 0 ∧ s.depletion_age = none
  let depl := if depleting then some age else s.depletion_age
  let portfolio3 := if depleting then 0 else portfolio2
  let fi := if s.fi_age = none ∧ fiTarget ≤ portfolio3 then some age else s.fi_age
  (⟨ai, oi, ae, portfolio3, cb2, depl, fi⟩,
   ⟨age, portfolio3, w, cgt, if preRet then ae else 0, salary, extra, itax, net, growth⟩)

/-- The values of a simulated year after sections A-D and the pre/post
retirement branch of src/simulate.py (lines 248-327), before the depletion
and FIRE checks. -/
structure YearMid where
  ai : ℤ
  oi : ℤ
  ae : ℤ
  salary : ℤ
  extra : ℤ
  itax : ℤ
  net : ℤ
  growth : ℤ
  portfolio2 : ℤ
  cb2 : ℚ
  w : ℤ
  cgt : ℤ
deriving DecidableEq

/-- The pre/post-retirement branch of one simulated year (src/simulate.py
lines 275-327), given the already-computed net income, expenses and grown
balance: returns `(portfolio2, cost_basis2, withdrawal, capital_gains_tax)`.
The pre-retirement branch applies the cash flow; the post-retirement branch
withdraws the rounded `wr` fraction of the balance (clamped) and runs the
capital-gains computation. -/
def yearBranch (wr : ℚ) (p : Params) (age : ℕ) (s : SimState)
    (net ae portfolio1 : ℤ) : ℤ × ℚ × ℤ × ℤ :=
  if age < p.income_end_age then
    let cash_flow := net - ae
    if 0 ≤ cash_flow then
      (portfolio1 + cash_flow, s.cost_basis + (cash_flow : ℚ), 0, 0)
    else
      (portfolio1 + cash_flow, s.cost_basis, 0, 0)
  else
    let w0 := pyround ((portfolio1 : ℚ) * wr)
    if portfolio1 < w0 then
      let ct := sellTax p.capital_gains_tax_rate s.cost_basis 0 portfolio1
      (0, ct.1, portfolio1, ct.2)
    else
      let ct := sellTax p.capital_gains_tax_rate s.cost_basis (portfolio1 - w0) w0
      (portfolio1 - w0, ct.1, w0, ct.2)

/-- Sections A-D and the pre/post-retirement branch of one simulated year
(src/simulate.py lines 248-327), with the withdrawal rate as an explicit
argument (the source fixes it to `withdrawal_rate`; see `simStep`). -/
def yearMid (wr : ℚ) (p : Params) (idx age : ℕ) (s : SimState) : YearMid :=
  let ai := if 0 < idx ∧ age < p.income_end_age
            then pyround ((s.annual_income : ℚ) * (1 + p.inflation_rate))
            else s.annual_income
  let oi := if 0 < idx ∧ age < p.other_income_end_age
            then pyround ((s.other_income : ℚ) * (1 + p.inflation_rate))
            else s.other_income
  let ae := if 0 < idx ∧ age < p.income_end_age
            then pyround ((s.annual_expenses : ℚ) * (1 + p.inflation_rate))
            else s.annual_expenses
  let salary_income := if age < p.income_end_age then ai else 0
  let extra_income := if age < p.other_income_end_age then oi else 0
  let total_income := salary_income + extra_income
  let income_tax := if 0 < total_income then calculate_income_tax (total_income : ℚ) else 0
  let net_income := total_income - income_tax
  let investment_growth := pyround ((s.portfolio : ℚ) * p.expected_return)
  let portfolio1 := s.portfolio + investment_growth
  let b := yearBranch wr p age s net_income ae portfolio1
  ⟨ai, oi, ae, salary_income, extra_income, income_tax, net_income, investment_growth,
    b.1, b.2.1, b.2.2.1, b.2.2.2⟩

/-- One iteration of the simulation loop (src/simulate.py lines 248-348):
the mid-year computation followed by the depletion/FIRE checks and the
logged row. -/
def simStepRate (wr : ℚ) (p : Params) (idx age : ℕ) (s : SimState) :
    SimState × YearRecord :=
  let m := yearMid wr p idx age s
  finishYear (financial_independence_target p) (decide (age < p.income_end_age)) age s
    m.ai m.oi m.ae m.salary m.extra m.itax m.net m.growth m.portfolio2 m.cb2 m.w m.cgt

/-- One iteration of the simulation loop of src/simulate.py, with the
source's fixed `withdrawal_rate`. -/
def simStep (p : Params) (idx age : ℕ) (s : SimState) : SimState × YearRecord :=
  simStepRate withdrawal_rate p idx age s

/-- The initial loop state (src/simulate.py lines 234-246). -/
def initState (p : Params) : SimState :=
  ⟨p.annual_income_input, p.other_income_input, p.annual_expenses_input,
   p.current_savings, (p.current_savings : ℚ), none, none⟩

/-- The loop state entering iteration `k` (so `stateAt p 0` is the initial
state and the year `p.current_age + k` is simulated by step `k`). -/
def stateAt (p : Params) : ℕ → SimState
  | 0 => initState p
  | k + 1 => (simStep p k (p.current_age + k) (stateAt p k)).1

/-- The logged row produced by iteration `k` of the loop. -/
def recordAt (p : Params) (k : ℕ) : YearRecord :=
  (simStep p k (p.current_age + k) (stateAt p k)).2

/-- Number of simulated years: `np.arange(current_age, death_age + 1)`. -/
def numYears (p : Params) : ℕ :=
  p.death_age + 1 - p.current_age

/-- Modelled from the spec: src/simulate.py hardcodes the percentage-of-balance
withdrawal rate to 4%, while the spec's WithdrawalPolicy (section 4.4) makes
the rate configurable.  `stateAtRate` runs the same loop with a configurable
rate, as scenario B of the spec requires; `stateAtRate withdrawal_rate`
coincides with `stateAt`. -/
def stateAtRate (wr : ℚ) (p : Params) : ℕ → SimState
  | 0 => initState p
  | k + 1 => (simStepRate wr p k (p.current_age + k) (stateAtRate wr p k)).1

/-- The balance after the yearly growth step (src/simulate.py lines 272-273),
which is also the balance the withdrawal is taken from (and the
`portfolio_before_sell` of the capital-gains step). -/
def grownPortfolio (p : Params) (s : SimState) : ℤ :=
  s.portfolio + pyround ((s.portfolio : ℚ) * p.expected_return)

/-- The withdrawal actually subtracted in a post-retirement year
(src/simulate.py lines 295-302): the rounded percentage of the grown balance,
clamped to the balance when it exceeds it. -/
def actualWithdrawal (wr : ℚ) (p : Params) (s : SimState) : ℤ :=
  let w0 := pyround ((grownPortfolio p s : ℚ) * wr)
  if grownPortfolio p s < w0 then grownPortfolio p s else w0

/-- Continuity of the bracket table at an upper bound `b`: the tax at `b`
lands in the bracket with marginal data `(r1, d1)`, the tax at `b + 1` lands
in the next bracket `(r2, d2)`, and the two differ by at most one currency
unit. -/
def bracketContinuityAt : (Option ℚ × ℚ × ℚ) × (Option ℚ × ℚ × ℚ) → Prop
  | ((some b, r1, d1), (_, r2, d2)) =>
      calculate_income_tax b = max 0 (pyround (b * r1 - d1)) ∧
      calculate_income_tax (b + 1) = max 0 (pyround ((b + 1) * r2 - d2)) ∧
      |calculate_income_tax b - calculate_income_tax (b + 1)| ≤ 1
  | ((none, _, _), _) => True

instance : DecidablePred bracketContinuityAt := fun pr =>
  match pr with
  | ((some _, _, _), (_, _, _)) =>
      inferInstanceAs (Decidable (_ = _ ∧ _ = _ ∧ _ ≤ _))
  | ((none, _, _), _) => .isTrue trivial

/-! ### Concrete runs used as witnesses and counterexamples -/

/-- A valid parameter set whose run depletes in its first year (no savings,
no income, positive expenses) and afterwards keeps overspending. -/
def paramsDepleted : Params := ⟨30, 33, 0, 0, 32, 0, 32, 100, 0, 0, 0⟩

/-- A valid parameter set that starts beyond its FIRE target and retires
immediately. -/
def paramsRich : Params := ⟨30, 33, 1000, 0, 30, 0, 30, 1, 0, 0, 0⟩

/-- A logged row with its capital-gains-tax column cleared: two rows agree
under `scrubR` exactly when they agree on everything except that column. -/
def scrubR (r : YearRecord) : YearRecord := { r with tax_paid := 0 }

/-- The Scenario-A inputs of the spec (section 8), with the expected return
set to 0%: age 30 to 90, savings 500,000,000, salary 100,000,000 until 45,
no other income, expenses 70,000,000, inflation 2%, gains tax 22%. -/
def scenarioB : Params :=
  ⟨30, 90, 500000000, 100000000, 45, 0, 70, 70000000, 0, 2/100, 22/100⟩

theorem stateAtRate_withdrawal_rate (p : Params) (k : ℕ) :
    stateAtRate withdrawal_rate p k = stateAt p k := by
  induction k with
  | zero => rfl
  | succ k ih => simp [stateAtRate, stateAt, simStep, ih]

/-! ### Basic facts about `pyround` -/

theorem round_eq_floor_of_fract_lt_half {x : ℚ} (h : Int.fract x < 1/2) :
    round x = ⌊x⌋ := by
  have hfr : x - ⌊x⌋ = Int.fract x := Int.self_sub_floor x
  rw [round_eq, Int.floor_eq_iff]
  have h0 : (⌊x⌋ : ℚ) ≤ x := Int.floor_le x
  constructor
  · linarith
  · linarith

theorem round_eq_floor_add_one_of_half_lt {x : ℚ} (h : 1/2 < Int.fract x) :
    round x = ⌊x⌋ + 1 := by
  have hfr : x - ⌊x⌋ = Int.fract x := Int.self_sub_floor x
  have h1 : Int.fract x < 1 := Int.fract_lt_one x
  rw [round_eq, Int.floor_eq_iff]
  constructor
  · push_cast
    linarith
  · push_cast
    linarith

theorem floor_le_pyround (x : ℚ) : ⌊x⌋ ≤ pyround x := by
  unfold pyround
  split_ifs with h1 h2
  · exact le_refl _
  · omega
  · rcases lt_or_gt_of_ne h1 with h | h
    · rw [round_eq_floor_of_fract_lt_half h]
    · rw [round_eq_floor_add_one_of_half_lt h]
      omega

theorem pyround_le_floor_add_one (x : ℚ) : pyround x ≤ ⌊x⌋ + 1 := by
  unfold pyround
  split_ifs with h1 h2
  · omega
  · exact le_refl _
  · rcases lt_or_gt_of_ne h1 with h | h
    · rw [round_eq_floor_of_fract_lt_half h]
      omega
    · rw [round_eq_floor_add_one_of_half_lt h]

theorem pyround_eq_floor_of_fract_lt_half {x : ℚ} (h : Int.fract x < 1/2) :
    pyround x = ⌊x⌋ := by
  unfold pyround
  rw [if_neg (by intro he; rw [he] at h; norm_num at h)]
  exact round_eq_floor_of_fract_lt_half h

theorem pyround_eq_floor_add_one_of_half_lt {x : ℚ} (h : 1/2 < Int.fract x) :
    pyround x = ⌊x⌋ + 1 := by
  unfold pyround
  rw [if_neg (by intro he; rw [he] at h; norm_num at h)]
  exact round_eq_floor_add_one_of_half_lt h

theorem pyround_mono {x y : ℚ} (h : x ≤ y) : pyround x ≤ pyround y := by
  by_cases hf : ⌊x⌋ = ⌊y⌋
  · have hfr : Int.fract x ≤ Int.fract y := by
      have hx : x - ⌊x⌋ = Int.fract x := Int.self_sub_floor x
      have hy : y - ⌊y⌋ = Int.fract y := Int.self_sub_floor y
      have : ((⌊x⌋ : ℚ)) = ((⌊y⌋ : ℚ)) := by exact_mod_cast hf
      linarith
    rcases lt_trichotomy (Int.fract x) (1/2) with h1 | h1 | h1
    · rw [pyround_eq_floor_of_fract_lt_half h1, hf]
      exact floor_le_pyround y
    · by_cases h2 : Int.fract y = 1/2
      · have hxy : x = y := by
          rw [← Int.floor_add_fract x, ← Int.floor_add_fract y, hf, h1, h2]
        rw [hxy]
      · have h3 : 1/2 < Int.fract y := lt_of_le_of_ne (h1 ▸ hfr) (Ne.symm h2)
        calc pyround x ≤ ⌊x⌋ + 1 := pyround_le_floor_add_one x
          _ = ⌊y⌋ + 1 := by rw [hf]
          _ = pyround y := (pyround_eq_floor_add_one_of_half_lt h3).symm
    · have h3 : 1/2 < Int.fract y := lt_of_lt_of_le h1 hfr
      rw [pyround_eq_floor_add_one_of_half_lt h1,
        pyround_eq_floor_add_one_of_half_lt h3, hf]
  · have hlt : ⌊x⌋ < ⌊y⌋ := lt_of_le_of_ne (Int.floor_mono h) hf
    calc pyround x ≤ ⌊x⌋ + 1 := pyround_le_floor_add_one x
      _ ≤ ⌊y⌋ := by omega
      _ ≤ pyround y := floor_le_pyround y

theorem pyround_le_add_half (x : ℚ) : (pyround x : ℚ) ≤ x + 1/2 := by
  unfold pyround
  split_ifs with h1 h2
  · have := Int.floor_le x
    linarith
  · have hx : (⌊x⌋ : ℚ) + Int.fract x = x := Int.floor_add_fract x
    push_cast
    linarith
  · have := abs_sub_round x
    rw [abs_le] at this
    linarith [this.1]

theorem pyround_nonneg {x : ℚ} (h : 0 ≤ x) : 0 ≤ pyround x :=
  le_trans (Int.floor_nonneg.mpr h) (floor_le_pyround x)

/-! ### The progressive income tax: sign and monotonicity -/

theorem max_pyround_mono {a b : ℚ} (h : a ≤ b) :
    max 0 (pyround a) ≤ max 0 (pyround b) :=
  max_le_max (le_refl 0) (pyround_mono h)

theorem calculate_income_tax_nonneg (i : ℚ) : 0 ≤ calculate_income_tax i := by
  simp only [calculate_income_tax, tax_brackets, taxGo]
  split_ifs <;> exact le_max_left 0 _

set_option maxHeartbeats 3200000 in
theorem calculate_income_tax_mono {i j : ℚ} (h : i ≤ j) :
    calculate_income_tax i ≤ calculate_income_tax j := by
  simp only [calculate_income_tax, tax_brackets, taxGo]
  split_ifs <;> (apply max_pyround_mono; linarith)

/-- C5: for every non-negative income `i`, the progressive income tax
`calculate_income_tax i` is non-negative, and for all non-negative incomes
`i ≤ j` the tax is non-decreasing: `tax i ≤ tax j`. -/
theorem income_tax_nonneg_and_mono {i j : ℚ} (hi : 0 ≤ i) (hij : i ≤ j) :
    0 ≤ calculate_income_tax i ∧
    calculate_income_tax i ≤ calculate_income_tax j :=
  ⟨calculate_income_tax_nonneg i, calculate_income_tax_mono hij⟩

theorem income_tax_nonneg_and_mono_witness :
    (0 : ℚ) ≤ 30000000 ∧ (30000000 : ℚ) ≤ 100000000 ∧
    (0 ≤ calculate_income_tax 30000000 ∧
      calculate_income_tax 30000000 ≤ calculate_income_tax 100000000) :=
  ⟨by norm_num, by norm_num,
   income_tax_nonneg_and_mono (by norm_num) (by norm_num)⟩


set_option maxRecDepth 20000 in
/-- C8: for every adjacent pair of brackets in the income-tax table, the tax
computed at the lower bracket's upper bound (which selects that bracket's
rate and deduction) equals, to within one currency unit, the tax computed at
`upperBound + 1` (which selects the next bracket's rate and deduction). -/
theorem bracket_continuity :
    ∀ pr ∈ List.zip tax_brackets tax_brackets.tail, bracketContinuityAt pr :=
  of_decide_eq_true (by with_unfolding_all rfl)

theorem bracket_continuity_witness :
    ((some 12000000, (0.06 : ℚ), (0 : ℚ)),
      (some 46000000, (0.15 : ℚ), (1080000 : ℚ))) ∈
        List.zip tax_brackets tax_brackets.tail ∧
    bracketContinuityAt ((some 12000000, (0.06 : ℚ), (0 : ℚ)),
      (some 46000000, (0.15 : ℚ), (1080000 : ℚ))) :=
  ⟨by norm_num [tax_brackets, List.zip],
   bracket_continuity _ (by norm_num [tax_brackets, List.zip])⟩


/-! ### Step-level structural lemmas -/

theorem sellTax_fst_nonneg (r cb : ℚ) (pf w : ℤ) (h : 0 ≤ cb) :
    0 ≤ (sellTax r cb pf w).1 := by
  unfold sellTax
  dsimp only
  split_ifs <;> dsimp only <;> linarith

theorem finishYear_portfolio_neg (ft : ℤ) (b : Bool) (age : ℕ) (s : SimState)
    (ai oi ae sal ex it net gr : ℤ) (pf2 : ℤ) (cb2 : ℚ) (w cgt : ℤ)
    (h : (finishYear ft b age s ai oi ae sal ex it net gr pf2 cb2 w cgt).1.portfolio < 0) :
    (finishYear ft b age s ai oi ae sal ex it net gr pf2 cb2 w cgt).1.depletion_age ≠ none := by
  unfold finishYear at *
  dsimp only at *
  split_ifs at * with h1
  · exact absurd h (lt_irrefl 0)
  · intro hn
    exact h1 ⟨h, hn⟩

theorem finishYear_dep_some (ft : ℤ) (b : Bool) (age : ℕ) (s : SimState)
    (ai oi ae sal ex it net gr : ℤ) (pf2 : ℤ) (cb2 : ℚ) (w cgt : ℤ) (a : ℕ)
    (h : s.depletion_age = some a) :
    (finishYear ft b age s ai oi ae sal ex it net gr pf2 cb2 w cgt).1.depletion_age = some a := by
  unfold finishYear
  simp [h]

theorem finishYear_fi_some (ft : ℤ) (b : Bool) (age : ℕ) (s : SimState)
    (ai oi ae sal ex it net gr : ℤ) (pf2 : ℤ) (cb2 : ℚ) (w cgt : ℤ) (a : ℕ)
    (h : s.fi_age = some a) :
    (finishYear ft b age s ai oi ae sal ex it net gr pf2 cb2 w cgt).1.fi_age = some a := by
  unfold finishYear
  simp [h]

theorem finishYear_record_portfolio (ft : ℤ) (b : Bool) (age : ℕ) (s : SimState)
    (ai oi ae sal ex it net gr : ℤ) (pf2 : ℤ) (cb2 : ℚ) (w cgt : ℤ) :
    (finishYear ft b age s ai oi ae sal ex it net gr pf2 cb2 w cgt).2.portfolio_value =
      (finishYear ft b age s ai oi ae sal ex it net gr pf2 cb2 w cgt).1.portfolio := rfl

theorem finishYear_record_nonneg (ft : ℤ) (b : Bool) (age : ℕ) (s : SimState)
    (ai oi ae sal ex it net gr : ℤ) (pf2 : ℤ) (cb2 : ℚ) (w cgt : ℤ)
    (h : s.depletion_age = none) :
    0 ≤ (finishYear ft b age s ai oi ae sal ex it net gr pf2 cb2 w cgt).2.portfolio_value := by
  unfold finishYear
  dsimp only
  split_ifs with h1
  · exact le_refl 0
  · rw [not_and_or] at h1
    rcases h1 with h1 | h1
    · omega
    · exact absurd h h1

theorem simStepRate_cost_basis (wr : ℚ) (p : Params) (idx age : ℕ) (s : SimState) :
    (simStepRate wr p idx age s).1.cost_basis = (yearMid wr p idx age s).cb2 := rfl

theorem simStepRate_tax_paid (wr : ℚ) (p : Params) (idx age : ℕ) (s : SimState) :
    (simStepRate wr p idx age s).2.tax_paid = (yearMid wr p idx age s).cgt := rfl

theorem simStepRate_withdrawal (wr : ℚ) (p : Params) (idx age : ℕ) (s : SimState) :
    (simStepRate wr p idx age s).2.withdrawal = (yearMid wr p idx age s).w := rfl

theorem yearBranch_cb_nonneg (wr : ℚ) (p : Params) (age : ℕ) (s : SimState)
    (net ae pf1 : ℤ) (h : 0 ≤ s.cost_basis) :
    0 ≤ (yearBranch wr p age s net ae pf1).2.1 := by
  unfold yearBranch
  dsimp only
  split_ifs with h1 h2 h3
  · dsimp only
    have hq : (0 : ℚ) ≤ ((net - ae : ℤ) : ℚ) := by exact_mod_cast h2
    linarith
  · exact h
  · exact sellTax_fst_nonneg _ _ _ _ h
  · exact sellTax_fst_nonneg _ _ _ _ h

theorem yearMid_cb2_eq (wr : ℚ) (p : Params) (idx age : ℕ) (s : SimState) :
    (yearMid wr p idx age s).cb2 =
      (yearBranch wr p age s (yearMid wr p idx age s).net (yearMid wr p idx age s).ae
        (s.portfolio + (yearMid wr p idx age s).growth)).2.1 := rfl

theorem yearMid_cb2_nonneg (wr : ℚ) (p : Params) (idx age : ℕ) (s : SimState)
    (h : 0 ≤ s.cost_basis) : 0 ≤ (yearMid wr p idx age s).cb2 := by
  rw [yearMid_cb2_eq]
  exact yearBranch_cb_nonneg _ _ _ _ _ _ _ h

theorem simStepRate_portfolio_neg_dep (wr : ℚ) (p : Params) (idx age : ℕ)
    (s : SimState) (h : (simStepRate wr p idx age s).1.portfolio < 0) :
    (simStepRate wr p idx age s).1.depletion_age ≠ none := by
  unfold simStepRate at h ⊢
  exact finishYear_portfolio_neg _ _ _ _ _ _ _ _ _ _ _ _ _ _ _ _ h

theorem simStepRate_dep_preserved (wr : ℚ) (p : Params) (idx age : ℕ)
    (s : SimState) (a : ℕ) (h : s.depletion_age = some a) :
    (simStepRate wr p idx age s).1.depletion_age = some a := by
  unfold simStepRate
  exact finishYear_dep_some _ _ _ _ _ _ _ _ _ _ _ _ _ _ _ _ a h

theorem simStepRate_fi_preserved (wr : ℚ) (p : Params) (idx age : ℕ)
    (s : SimState) (a : ℕ) (h : s.fi_age = some a) :
    (simStepRate wr p idx age s).1.fi_age = some a := by
  unfold simStepRate
  exact finishYear_fi_some _ _ _ _ _ _ _ _ _ _ _ _ _ _ _ _ a h

theorem simStepRate_cost_basis_nonneg (wr : ℚ) (p : Params) (idx age : ℕ)
    (s : SimState) (h : 0 ≤ s.cost_basis) :
    0 ≤ (simStepRate wr p idx age s).1.cost_basis := by
  rw [simStepRate_cost_basis]
  exact yearMid_cb2_nonneg wr p idx age s h

theorem simStepRate_record_portfolio (wr : ℚ) (p : Params) (idx age : ℕ)
    (s : SimState) :
    (simStepRate wr p idx age s).2.portfolio_value =
      (simStepRate wr p idx age s).1.portfolio := rfl

theorem simStepRate_record_nonneg (wr : ℚ) (p : Params) (idx age : ℕ)
    (s : SimState) (h : s.depletion_age = none) :
    0 ≤ (simStepRate wr p idx age s).2.portfolio_value := by
  unfold simStepRate
  exact finishYear_record_nonneg _ _ _ _ _ _ _ _ _ _ _ _ _ _ _ _ h

/-! ### Run-level invariants -/

theorem stateAt_portfolio_neg_dep (p : Params) (hs : 0 ≤ p.current_savings)
    (k : ℕ) (h : (stateAt p k).portfolio < 0) :
    (stateAt p k).depletion_age ≠ none := by
  cases k with
  | zero =>
      exfalso
      simp only [stateAt, initState] at h
      omega
  | succ k => exact simStepRate_portfolio_neg_dep withdrawal_rate p k _ (stateAt p k) h

theorem stateAt_cost_basis_nonneg (p : Params) (hs : 0 ≤ p.current_savings)
    (k : ℕ) : 0 ≤ (stateAt p k).cost_basis := by
  induction k with
  | zero =>
      simp only [stateAt, initState]
      exact_mod_cast hs
  | succ k ih => exact simStepRate_cost_basis_nonneg withdrawal_rate p k _ (stateAt p k) ih

theorem stateAt_fi_preserved (p : Params) (k n a : ℕ)
    (h : (stateAt p k).fi_age = some a) :
    (stateAt p (k + n)).fi_age = some a := by
  induction n with
  | zero => exact h
  | succ n ih => exact simStepRate_fi_preserved withdrawal_rate p (k + n) _ (stateAt p (k + n)) a ih

/-- With a non-negative integer balance, the fixed 4% withdrawal rounds to at
most the balance, so the post-retirement clamp branch can fire only on a
negative balance. -/
theorem pyround_withdrawal_le {b : ℤ} (h : 0 ≤ b) :
    pyround ((b : ℚ) * withdrawal_rate) ≤ b := by
  have hb : (0 : ℚ) ≤ (b : ℚ) := by exact_mod_cast h
  have h1 : (pyround ((b : ℚ) * withdrawal_rate) : ℚ) ≤ (b : ℚ) * withdrawal_rate + 1/2 :=
    pyround_le_add_half _
  have h2 : (b : ℚ) * withdrawal_rate ≤ (b : ℚ) := by
    unfold withdrawal_rate
    nlinarith
  have h3 : (pyround ((b : ℚ) * withdrawal_rate) : ℚ) < (b : ℚ) + 1 := by linarith
  have h4 : pyround ((b : ℚ) * withdrawal_rate) < b + 1 := by exact_mod_cast h3
  omega

/-! ### Bridges between the step components -/

theorem yearMid_branch_eq (wr : ℚ) (p : Params) (idx age : ℕ) (s : SimState) :
    ((yearMid wr p idx age s).portfolio2, (yearMid wr p idx age s).cb2,
      (yearMid wr p idx age s).w, (yearMid wr p idx age s).cgt) =
      yearBranch wr p age s (yearMid wr p idx age s).net (yearMid wr p idx age s).ae
        (grownPortfolio p s) := rfl

theorem simStepRate_portfolio_ite (wr : ℚ) (p : Params) (idx age : ℕ) (s : SimState) :
    (simStepRate wr p idx age s).1.portfolio =
      if (yearMid wr p idx age s).portfolio2 < 0 ∧ s.depletion_age = none then 0
      else (yearMid wr p idx age s).portfolio2 := rfl

theorem simStepRate_depletion_ite (wr : ℚ) (p : Params) (idx age : ℕ) (s : SimState) :
    (simStepRate wr p idx age s).1.depletion_age =
      if (yearMid wr p idx age s).portfolio2 < 0 ∧ s.depletion_age = none then some age
      else s.depletion_age := rfl

theorem yearBranch_clamp (wr : ℚ) (p : Params) (age : ℕ) (s : SimState)
    (net ae pf1 : ℤ) (hpost : ¬ age < p.income_end_age)
    (hclamp : pf1 < pyround ((pf1 : ℚ) * wr)) :
    yearBranch wr p age s net ae pf1 =
      (0, (sellTax p.capital_gains_tax_rate s.cost_basis 0 pf1).1, pf1,
        (sellTax p.capital_gains_tax_rate s.cost_basis 0 pf1).2) := by
  unfold yearBranch
  rw [if_neg hpost, if_pos hclamp]

theorem yearBranch_noclamp (wr : ℚ) (p : Params) (age : ℕ) (s : SimState)
    (net ae pf1 : ℤ) (hpost : ¬ age < p.income_end_age)
    (hnc : ¬ pf1 < pyround ((pf1 : ℚ) * wr)) :
    yearBranch wr p age s net ae pf1 =
      (pf1 - pyround ((pf1 : ℚ) * wr),
        (sellTax p.capital_gains_tax_rate s.cost_basis
          (pf1 - pyround ((pf1 : ℚ) * wr)) (pyround ((pf1 : ℚ) * wr))).1,
        pyround ((pf1 : ℚ) * wr),
        (sellTax p.capital_gains_tax_rate s.cost_basis
          (pf1 - pyround ((pf1 : ℚ) * wr)) (pyround ((pf1 : ℚ) * wr))).2) := by
  unfold yearBranch
  rw [if_neg hpost, if_neg hnc]


/-! ### Claim C1: the clamped post-retirement withdrawal -/

/-- C1: in every post-retirement year of a valid run in which the computed
4% withdrawal exceeds the (post-growth) balance, the withdrawal is clamped
to the balance, the balance is set to 0 (and recorded as 0), and the
depletion age is recorded at the current age if it was not already set
(on a valid run this situation only arises with the depletion age already
set, and then it is preserved unchanged). -/
theorem clamped_withdrawal_spec (p : Params) (k : ℕ) (hv : ValidParams p)
    (hpost : ¬ p.current_age + k < p.income_end_age)
    (hclamp : grownPortfolio p (stateAt p k) <
      pyround ((grownPortfolio p (stateAt p k) : ℚ) * withdrawal_rate)) :
    (recordAt p k).withdrawal = grownPortfolio p (stateAt p k) ∧
    (recordAt p k).portfolio_value = 0 ∧
    (stateAt p (k + 1)).portfolio = 0 ∧
    ((stateAt p k).depletion_age = none →
      (stateAt p (k + 1)).depletion_age = some (p.current_age + k)) ∧
    ∀ a, (stateAt p k).depletion_age = some a →
      (stateAt p (k + 1)).depletion_age = some a := by
  have hr : 0 ≤ p.expected_return := hv.2.2.2.2.2.1
  have hneg : (stateAt p k).portfolio < 0 := by
    by_contra hnn
    push_neg at hnn
    have hg : 0 ≤ grownPortfolio p (stateAt p k) := by
      have h1 : 0 ≤ pyround (((stateAt p k).portfolio : ℚ) * p.expected_return) :=
        pyround_nonneg (mul_nonneg (by exact_mod_cast hnn) hr)
      unfold grownPortfolio
      omega
    exact absurd hclamp (not_lt.mpr (pyround_withdrawal_le hg))
  have hdeps : (stateAt p k).depletion_age ≠ none :=
    stateAt_portfolio_neg_dep p hv.2.1 k hneg
  have hb := yearMid_branch_eq withdrawal_rate p k (p.current_age + k) (stateAt p k)
  rw [yearBranch_clamp withdrawal_rate p (p.current_age + k) (stateAt p k)
    _ _ _ hpost hclamp] at hb
  rw [Prod.ext_iff, Prod.ext_iff, Prod.ext_iff] at hb
  obtain ⟨hpf2, hcb2, hw, hcgt⟩ := hb
  dsimp only at hpf2 hcb2 hw hcgt
  refine ⟨?_, ?_, ?_, ?_, ?_⟩
  · show (simStepRate withdrawal_rate p k (p.current_age + k) (stateAt p k)).2.withdrawal = _
    rw [simStepRate_withdrawal, hw]
  · show (simStepRate withdrawal_rate p k (p.current_age + k) (stateAt p k)).2.portfolio_value = 0
    rw [simStepRate_record_portfolio, simStepRate_portfolio_ite, hpf2]
    simp
  · show (simStepRate withdrawal_rate p k (p.current_age + k) (stateAt p k)).1.portfolio = 0
    rw [simStepRate_portfolio_ite, hpf2]
    simp
  · intro h
    exact absurd h hdeps
  · intro a ha
    show (simStepRate withdrawal_rate p k (p.current_age + k) (stateAt p k)).1.depletion_age = some a
    rw [simStepRate_depletion_ite, hpf2, ha]
    simp

set_option maxRecDepth 20000 in
theorem clamped_withdrawal_spec_witness :
    (ValidParams paramsDepleted ∧
      ¬ paramsDepleted.current_age + 2 < paramsDepleted.income_end_age ∧
      grownPortfolio paramsDepleted (stateAt paramsDepleted 2) <
        pyround ((grownPortfolio paramsDepleted (stateAt paramsDepleted 2) : ℚ) *
          withdrawal_rate)) ∧
    ((recordAt paramsDepleted 2).withdrawal =
        grownPortfolio paramsDepleted (stateAt paramsDepleted 2) ∧
      (recordAt paramsDepleted 2).portfolio_value = 0 ∧
      (stateAt paramsDepleted (2 + 1)).portfolio = 0 ∧
      ((stateAt paramsDepleted 2).depletion_age = none →
        (stateAt paramsDepleted (2 + 1)).depletion_age =
          some (paramsDepleted.current_age + 2)) ∧
      ∀ a, (stateAt paramsDepleted 2).depletion_age = some a →
        (stateAt paramsDepleted (2 + 1)).depletion_age = some a) :=
  ⟨of_decide_eq_true (by with_unfolding_all rfl),
   clamped_withdrawal_spec paramsDepleted 2
     (of_decide_eq_true (by with_unfolding_all rfl))
     (of_decide_eq_true (by with_unfolding_all rfl))
     (of_decide_eq_true (by with_unfolding_all rfl))⟩

/-! ### Claim C2: recorded balances and the depletion clamp -/

set_option maxRecDepth 20000 in
/-- C2 counterexample: a valid run (`paramsDepleted`) in which the second
year's record carries a strictly negative ending portfolio balance — the
clamp at src/simulate.py line 330 fires only while `depletion_age` is still
unset, so a balance that drops below zero after the depletion year is
recorded unclamped. -/
theorem recorded_balance_negative_after_depletion :
    ValidParams paramsDepleted ∧ 1 < numYears paramsDepleted ∧
    (recordAt paramsDepleted 1).portfolio_value < 0 :=
  of_decide_eq_true (by with_unfolding_all rfl)

/-- C2 amended: in every year that starts with `depletion_age` still unset,
a balance that drops below 0 is clamped to 0 before the year's record is
appended, so that year's recorded ending balance is ≥ 0; after
`depletion_age` has been set, negative balances are recorded unclamped. -/
theorem recorded_balance_nonneg_before_depletion (p : Params) (k : ℕ)
    (h : (stateAt p k).depletion_age = none) :
    0 ≤ (recordAt p k).portfolio_value :=
  simStepRate_record_nonneg withdrawal_rate p k _ (stateAt p k) h

set_option maxRecDepth 20000 in
theorem recorded_balance_nonneg_before_depletion_witness :
    (stateAt paramsRich 0).depletion_age = none ∧
    0 ≤ (recordAt paramsRich 0).portfolio_value :=
  ⟨of_decide_eq_true (by with_unfolding_all rfl),
   recorded_balance_nonneg_before_depletion paramsRich 0
     (of_decide_eq_true (by with_unfolding_all rfl))⟩

/-! ### Claim C6: the FIRE age is sticky -/

/-- C6: once `fi_age` has been set (to `some a`), it keeps exactly that
value in every later year of the run, even if the balance subsequently
falls below the financial-independence target. -/
theorem fi_age_sticky (p : Params) (k n a : ℕ)
    (h : (stateAt p k).fi_age = some a) :
    (stateAt p (k + n)).fi_age = some a :=
  stateAt_fi_preserved p k n a h

set_option maxRecDepth 20000 in
theorem fi_age_sticky_witness :
    (stateAt paramsRich 1).fi_age = some 30 ∧
    (stateAt paramsRich (1 + 2)).fi_age = some 30 :=
  ⟨of_decide_eq_true (by with_unfolding_all rfl),
   fi_age_sticky paramsRich 1 2 30 (of_decide_eq_true (by with_unfolding_all rfl))⟩

/-! ### Claim C7: the cost basis -/

set_option maxRecDepth 20000 in
/-- C7 counterexample: in the valid run `paramsDepleted`, year 2 is a
post-retirement year (so it adds no contribution), it performs a negative
clamped withdrawal, and the cost basis strictly rises across it — so the
cost basis does not rise only by non-negative net contributions. -/
theorem cost_basis_rise_post_retirement :
    ValidParams paramsDepleted ∧
    ¬ paramsDepleted.current_age + 2 < paramsDepleted.income_end_age ∧
    (recordAt paramsDepleted 2).withdrawal < 0 ∧
    (stateAt paramsDepleted 2).cost_basis < (stateAt paramsDepleted 3).cost_basis ∧
    2 < numYears paramsDepleted :=
  of_decide_eq_true (by with_unfolding_all rfl)

/-- C7 amended: throughout every run with non-negative starting savings,
the cost basis starts equal to the starting savings and stays ≥ 0 after
every yearly update (every reduction is clamped at 0); however, a rise is
not always a pre-retirement net contribution — a depleted run's negative
clamped withdrawal can also increase the cost basis. -/
theorem cost_basis_nonneg_invariant (p : Params) (k : ℕ)
    (hs : 0 ≤ p.current_savings) :
    (stateAt p 0).cost_basis = (p.current_savings : ℚ) ∧
    0 ≤ (stateAt p k).cost_basis :=
  ⟨rfl, stateAt_cost_basis_nonneg p hs k⟩

set_option maxRecDepth 20000 in
theorem cost_basis_nonneg_invariant_witness :
    (0 : ℤ) ≤ paramsRich.current_savings ∧
    ((stateAt paramsRich 0).cost_basis = (paramsRich.current_savings : ℚ) ∧
      0 ≤ (stateAt paramsRich 2).cost_basis) :=
  ⟨of_decide_eq_true (by with_unfolding_all rfl),
   cost_basis_nonneg_invariant paramsRich 2
     (of_decide_eq_true (by with_unfolding_all rfl))⟩

/-! ### Claims C3 and C4: the capital-gains computation -/

theorem ite_neg_eq_max (x : ℚ) : (if x < 0 then 0 else x) = max 0 x := by
  split_ifs with h
  · exact (max_eq_left h.le).symm
  · exact (max_eq_right (not_lt.mp h)).symm

theorem sellTax_nogain (r cb : ℚ) (pf2 w pbs : ℤ) (hpbs : pf2 + w = pbs)
    (hng : (pbs : ℚ) - cb ≤ 0) :
    sellTax r cb pf2 w = (max 0 (cb - (w : ℚ)), 0) := by
  subst hpbs
  simp only [sellTax]
  rw [if_pos hng, ite_neg_eq_max]

theorem sellTax_gain (r cb : ℚ) (pf2 w pbs : ℤ) (hpbs : pf2 + w = pbs)
    (hg : 0 < (pbs : ℚ) - cb) :
    sellTax r cb pf2 w =
      (max 0 (cb - max 0 ((w : ℚ) - ((pbs : ℚ) - cb) * ((w : ℚ) / (pbs : ℚ)))),
        pyround (max 0 (((pbs : ℚ) - cb) * ((w : ℚ) / (pbs : ℚ)) -
          capital_gains_exemption) * r)) := by
  subst hpbs
  simp only [sellTax]
  rw [if_neg (not_le.mpr hg)]
  simp only [ite_neg_eq_max]

/-- C4: in every post-retirement year whose pre-withdrawal unrealized gain
(grown balance minus cost basis) is ≤ 0, the recorded capital-gains tax is
exactly 0 — whatever the withdrawal amount — and the cost basis is reduced
by exactly the (possibly clamped) withdrawal, the result clamped at 0. -/
theorem no_gain_no_tax (p : Params) (idx age : ℕ) (s : SimState)
    (hpost : ¬ age < p.income_end_age)
    (hng : (grownPortfolio p s : ℚ) - s.cost_basis ≤ 0) :
    (simStep p idx age s).2.tax_paid = 0 ∧
    (simStep p idx age s).1.cost_basis =
      max 0 (s.cost_basis - (actualWithdrawal withdrawal_rate p s : ℚ)) := by
  have hb := yearMid_branch_eq withdrawal_rate p idx age s
  by_cases hcl : grownPortfolio p s <
      pyround ((grownPortfolio p s : ℚ) * withdrawal_rate)
  · rw [yearBranch_clamp withdrawal_rate p age s _ _ _ hpost hcl,
      sellTax_nogain _ _ _ _ (grownPortfolio p s) (zero_add _) hng] at hb
    rw [Prod.ext_iff, Prod.ext_iff, Prod.ext_iff] at hb
    obtain ⟨hpf2, hcb2, hw, hcgt⟩ := hb
    dsimp only at hpf2 hcb2 hw hcgt
    constructor
    · show (simStepRate withdrawal_rate p idx age s).2.tax_paid = 0
      rw [simStepRate_tax_paid, hcgt]
    · show (simStepRate withdrawal_rate p idx age s).1.cost_basis = _
      rw [simStepRate_cost_basis, hcb2]
      unfold actualWithdrawal
      rw [if_pos hcl]
  · rw [yearBranch_noclamp withdrawal_rate p age s _ _ _ hpost hcl,
      sellTax_nogain _ _ _ _ (grownPortfolio p s) (by ring) hng] at hb
    rw [Prod.ext_iff, Prod.ext_iff, Prod.ext_iff] at hb
    obtain ⟨hpf2, hcb2, hw, hcgt⟩ := hb
    dsimp only at hpf2 hcb2 hw hcgt
    constructor
    · show (simStepRate withdrawal_rate p idx age s).2.tax_paid = 0
      rw [simStepRate_tax_paid, hcgt]
    · show (simStepRate withdrawal_rate p idx age s).1.cost_basis = _
      rw [simStepRate_cost_basis, hcb2]
      unfold actualWithdrawal
      rw [if_neg hcl]

theorem no_gain_no_tax_witness :
    (¬ (65 : ℕ) < paramsRich.income_end_age ∧
      (grownPortfolio paramsRich ⟨0, 0, 0, 1000, 2000, none, none⟩ : ℚ) -
        (SimState.mk 0 0 0 1000 2000 none none).cost_basis ≤ 0) ∧
    ((simStep paramsRich 0 65 ⟨0, 0, 0, 1000, 2000, none, none⟩).2.tax_paid = 0 ∧
      (simStep paramsRich 0 65 ⟨0, 0, 0, 1000, 2000, none, none⟩).1.cost_basis =
        max 0 ((SimState.mk 0 0 0 1000 2000 none none).cost_basis -
          (actualWithdrawal withdrawal_rate paramsRich
            ⟨0, 0, 0, 1000, 2000, none, none⟩ : ℚ))) :=
  ⟨of_decide_eq_true (by with_unfolding_all rfl),
   no_gain_no_tax paramsRich 0 65 ⟨0, 0, 0, 1000, 2000, none, none⟩
     (of_decide_eq_true (by with_unfolding_all rfl))
     (of_decide_eq_true (by with_unfolding_all rfl))⟩

/-- C3: in every post-retirement year whose pre-withdrawal unrealized gain
(grown balance minus cost basis) is > 0, the recorded capital-gains tax is
`round(max(0, gain × (withdrawal / balanceBeforeWithdrawal) − exemption) ×
capitalGainsRate)`, and the cost basis is reduced by the principal portion
`max(0, withdrawal − realizedGain)`, the result clamped at 0. -/
theorem capital_gains_tax_formula (p : Params) (idx age : ℕ) (s : SimState)
    (hpost : ¬ age < p.income_end_age)
    (hg : 0 < (grownPortfolio p s : ℚ) - s.cost_basis) :
    (simStep p idx age s).2.tax_paid =
      pyround (max 0 (((grownPortfolio p s : ℚ) - s.cost_basis) *
        ((actualWithdrawal withdrawal_rate p s : ℚ) / (grownPortfolio p s : ℚ)) -
        capital_gains_exemption) * p.capital_gains_tax_rate) ∧
    (simStep p idx age s).1.cost_basis =
      max 0 (s.cost_basis - max 0 ((actualWithdrawal withdrawal_rate p s : ℚ) -
        ((grownPortfolio p s : ℚ) - s.cost_basis) *
        ((actualWithdrawal withdrawal_rate p s : ℚ) / (grownPortfolio p s : ℚ)))) := by
  have hb := yearMid_branch_eq withdrawal_rate p idx age s
  by_cases hcl : grownPortfolio p s <
      pyround ((grownPortfolio p s : ℚ) * withdrawal_rate)
  · rw [yearBranch_clamp withdrawal_rate p age s _ _ _ hpost hcl,
      sellTax_gain _ _ _ _ (grownPortfolio p s) (zero_add _) hg] at hb
    rw [Prod.ext_iff, Prod.ext_iff, Prod.ext_iff] at hb
    obtain ⟨hpf2, hcb2, hw, hcgt⟩ := hb
    dsimp only at hpf2 hcb2 hw hcgt
    constructor
    · show (simStepRate withdrawal_rate p idx age s).2.tax_paid = _
      rw [simStepRate_tax_paid, hcgt]
      unfold actualWithdrawal
      rw [if_pos hcl]
    · show (simStepRate withdrawal_rate p idx age s).1.cost_basis = _
      rw [simStepRate_cost_basis, hcb2]
      unfold actualWithdrawal
      rw [if_pos hcl]
  · rw [yearBranch_noclamp withdrawal_rate p age s _ _ _ hpost hcl,
      sellTax_gain _ _ _ _ (grownPortfolio p s) (by ring) hg] at hb
    rw [Prod.ext_iff, Prod.ext_iff, Prod.ext_iff] at hb
    obtain ⟨hpf2, hcb2, hw, hcgt⟩ := hb
    dsimp only at hpf2 hcb2 hw hcgt
    constructor
    · show (simStepRate withdrawal_rate p idx age s).2.tax_paid = _
      rw [simStepRate_tax_paid, hcgt]
      unfold actualWithdrawal
      rw [if_neg hcl]
    · show (simStepRate withdrawal_rate p idx age s).1.cost_basis = _
      rw [simStepRate_cost_basis, hcb2]
      unfold actualWithdrawal
      rw [if_neg hcl]

theorem capital_gains_tax_formula_witness :
    (¬ (65 : ℕ) < paramsRich.income_end_age ∧
      0 < (grownPortfolio paramsRich ⟨0, 0, 0, 100000000, 0, none, none⟩ : ℚ) -
        (SimState.mk 0 0 0 100000000 0 none none).cost_basis) ∧
    ((simStep paramsRich 0 65 ⟨0, 0, 0, 100000000, 0, none, none⟩).2.tax_paid =
      pyround (max 0 (((grownPortfolio paramsRich
          ⟨0, 0, 0, 100000000, 0, none, none⟩ : ℚ) -
          (SimState.mk 0 0 0 100000000 0 none none).cost_basis) *
        ((actualWithdrawal withdrawal_rate paramsRich
            ⟨0, 0, 0, 100000000, 0, none, none⟩ : ℚ) /
          (grownPortfolio paramsRich ⟨0, 0, 0, 100000000, 0, none, none⟩ : ℚ)) -
        capital_gains_exemption) * paramsRich.capital_gains_tax_rate) ∧
      (simStep paramsRich 0 65 ⟨0, 0, 0, 100000000, 0, none, none⟩).1.cost_basis =
        max 0 ((SimState.mk 0 0 0 100000000 0 none none).cost_basis -
          max 0 ((actualWithdrawal withdrawal_rate paramsRich
              ⟨0, 0, 0, 100000000, 0, none, none⟩ : ℚ) -
            ((grownPortfolio paramsRich ⟨0, 0, 0, 100000000, 0, none, none⟩ : ℚ) -
              (SimState.mk 0 0 0 100000000 0 none none).cost_basis) *
            ((actualWithdrawal withdrawal_rate paramsRich
                ⟨0, 0, 0, 100000000, 0, none, none⟩ : ℚ) /
              (grownPortfolio paramsRich ⟨0, 0, 0, 100000000, 0, none, none⟩ : ℚ))))) :=
  ⟨of_decide_eq_true (by with_unfolding_all rfl),
   capital_gains_tax_formula paramsRich 0 65 ⟨0, 0, 0, 100000000, 0, none, none⟩
     (of_decide_eq_true (by with_unfolding_all rfl))
     (of_decide_eq_true (by with_unfolding_all rfl))⟩

/-! ### Claim C10: the capital-gains rate influences only the tax column -/


theorem sellTax_fst_rate (r1 r2 cb : ℚ) (pf w : ℤ) :
    (sellTax r1 cb pf w).1 = (sellTax r2 cb pf w).1 := by
  simp only [sellTax]
  by_cases h : ((pf + w : ℤ) : ℚ) - cb ≤ 0
  · rw [if_pos h, if_pos h]
  · rw [if_neg h, if_neg h]

theorem yearBranch_rate_inv (wr : ℚ) (p q : Params) (age : ℕ) (s : SimState)
    (net ae pf1 : ℤ) (hie : q.income_end_age = p.income_end_age) :
    (yearBranch wr q age s net ae pf1).1 = (yearBranch wr p age s net ae pf1).1 ∧
    (yearBranch wr q age s net ae pf1).2.1 = (yearBranch wr p age s net ae pf1).2.1 ∧
    (yearBranch wr q age s net ae pf1).2.2.1 =
      (yearBranch wr p age s net ae pf1).2.2.1 := by
  unfold yearBranch
  dsimp only
  rw [hie]
  split_ifs <;>
    first
      | exact ⟨rfl, rfl, rfl⟩
      | exact ⟨rfl, sellTax_fst_rate _ _ _ _ _, rfl⟩

theorem simStepRate_rate_inv (wr : ℚ) (p : Params) (c : ℚ) (idx age : ℕ)
    (s : SimState) :
    (simStepRate wr { p with capital_gains_tax_rate := c } idx age s).1 =
      (simStepRate wr p idx age s).1 ∧
    scrubR (simStepRate wr { p with capital_gains_tax_rate := c } idx age s).2 =
      scrubR (simStepRate wr p idx age s).2 := by
  have hbr := yearBranch_rate_inv wr p { p with capital_gains_tax_rate := c } age s
    (yearMid wr p idx age s).net (yearMid wr p idx age s).ae (grownPortfolio p s) rfl
  have h1 : (yearMid wr { p with capital_gains_tax_rate := c } idx age s).portfolio2 =
      (yearMid wr p idx age s).portfolio2 := hbr.1
  have h2 : (yearMid wr { p with capital_gains_tax_rate := c } idx age s).cb2 =
      (yearMid wr p idx age s).cb2 := hbr.2.1
  have h3 : (yearMid wr { p with capital_gains_tax_rate := c } idx age s).w =
      (yearMid wr p idx age s).w := hbr.2.2
  constructor
  · show (simStepRate wr { p with capital_gains_tax_rate := c } idx age s).1 = _
    unfold simStepRate
    dsimp only
    rw [h1, h2, h3]
    rfl
  · unfold simStepRate scrubR
    dsimp only
    rw [h1, h3]
    rfl

theorem stateAt_rate_eq (p : Params) (c : ℚ) (k : ℕ) :
    stateAt { p with capital_gains_tax_rate := c } k = stateAt p k := by
  induction k with
  | zero => rfl
  | succ k ih =>
      show (simStep { p with capital_gains_tax_rate := c } k _
        (stateAt { p with capital_gains_tax_rate := c } k)).1 = _
      rw [ih]
      exact (simStepRate_rate_inv withdrawal_rate p c k _ (stateAt p k)).1

/-- C10: two runs that differ only in the capital-gains tax rate have
identical loop states in every year (balances, cost bases, milestone ages,
rolling incomes) and identical logged rows apart from the capital-gains-tax
column — the computed capital-gains tax is never deducted from the
portfolio. -/
theorem capital_gains_rate_noninterference (p : Params) (c : ℚ) (k : ℕ) :
    stateAt { p with capital_gains_tax_rate := c } k = stateAt p k ∧
    scrubR (recordAt { p with capital_gains_tax_rate := c } k) =
      scrubR (recordAt p k) := by
  refine ⟨stateAt_rate_eq p c k, ?_⟩
  show scrubR (simStep { p with capital_gains_tax_rate := c } k _
    (stateAt { p with capital_gains_tax_rate := c } k)).2 = _
  rw [stateAt_rate_eq]
  exact (simStepRate_rate_inv withdrawal_rate p c k _ (stateAt p k)).2

/-! ### Claim C9: scenario B (10% withdrawal, 0% return) -/


set_option maxRecDepth 100000 in
/-- C9 counterexample: running the spec-modelled percentage-of-balance
policy at a 10% withdrawal rate with 0% return on the Scenario-A inputs
never sets the depletion age — it is still unset at the end-of-life age,
contradicting the expectation that it is set strictly before it. -/
theorem scenarioB_no_depletion_counterexample :
    (stateAtRate (1/10) scenarioB (numYears scenarioB)).depletion_age = none :=
  of_decide_eq_true (by with_unfolding_all rfl)

set_option maxRecDepth 100000 in
/-- C9 amended: with the withdrawal rate raised to 10% and the return fixed
at 0% on the Scenario-A inputs, `depletion_age` is never set: a rounded
percentage-of-balance withdrawal never exceeds a non-negative balance, so
the balance only decays geometrically and is still strictly positive at the
end-of-life age. -/
theorem scenarioB_depletion_never_set :
    ValidParams scenarioB ∧
    (stateAtRate (1/10) scenarioB (numYears scenarioB)).depletion_age = none ∧
    0 < (stateAtRate (1/10) scenarioB (numYears scenarioB)).portfolio :=
  of_decide_eq_true (by with_unfolding_all rfl)
